import Mathlib

/-!
Verification of the mysql-mcp connection registry, statement-validation
gateway and operation dispatcher (src/mysql.rs), shallowly embedded in
Lean 4.  External collaborators (the sqlparser crate, the sqlx pool and
engine, serde_json serialization, uuid generation) are modelled as
explicit oracle parameters; everything the repository itself computes is
transcribed as executable Lean functions.
-/

/-- Opaque handle standing for a live `sqlx::mysql::MySqlPool`. -/
structure MySqlPool where
  token : Nat
deriving DecidableEq, Repr

/-- Mirror of `struct Conn { id, conn_str, pool }` (mysql.rs lines 13-17). -/
structure Conn where
  id : String
  conn_str : String
  pool : MySqlPool
deriving DecidableEq, Repr

/-- The registry mapping published through the `ArcSwap<HashMap<String, Conn>>`:
an association list with unique keys, most recent binding first. -/
abbrev ConnMap := List (String × Conn)

/-- Mirror of `HashMap::get` on the published mapping. -/
def lookupConn : ConnMap → String → Option Conn
  | [], _ => none
  | (k, v) :: rest, id => if k = id then some v else lookupConn rest id

/-- Mirror of `HashMap::remove`: deletes the binding for `id` (if any). -/
def removeConn : ConnMap → String → ConnMap
  | [], _ => []
  | (k, v) :: rest, id =>
    if k = id then removeConn rest id else (k, v) :: removeConn rest id

/-- Mirror of `HashMap::insert`: binds `id` to `c`, replacing any previous binding. -/
def insertConn (m : ConnMap) (id : String) (c : Conn) : ConnMap :=
  (id, c) :: removeConn m id

/-- Mirror of `struct Conns { inner: Arc<ArcSwap<HashMap<String, Conn>>> }`
(mysql.rs lines 19-22): the currently published snapshot. -/
structure Conns where
  inner : ConnMap
deriving DecidableEq, Repr

/-- The syntactic kind of a parsed statement: the `sqlparser::ast::Statement`
variants the dispatcher matches on, every other variant folded into
`OtherStmt`.  The `String` payload stands for the rest of the AST node. -/
inductive Statement
  | Query (body : String)
  | Insert (body : String)
  | Update (body : String)
  | Delete (body : String)
  | CreateTable (body : String)
  | CreateIndex (body : String)
  | OtherStmt (body : String)
deriving DecidableEq, Repr

/-- Matcher `matches!(stmt, Statement::Query(_))` (mysql.rs line 88). -/
def isQueryStmt : Statement → Bool
  | .Query _ => true
  | _ => false

/-- Matcher `matches!(stmt, Statement::Insert { .. })` (mysql.rs line 122). -/
def isInsertStmt : Statement → Bool
  | .Insert _ => true
  | _ => false

/-- Matcher `matches!(stmt, Statement::Update { .. })` (mysql.rs line 142). -/
def isUpdateStmt : Statement → Bool
  | .Update _ => true
  | _ => false

/-- Matcher `matches!(stmt, Statement::Delete { .. })` (mysql.rs line 162). -/
def isDeleteStmt : Statement → Bool
  | .Delete _ => true
  | _ => false

/-- Matcher `matches!(stmt, Statement::CreateTable { .. })` (mysql.rs line 182). -/
def isCreateTableStmt : Statement → Bool
  | .CreateTable _ => true
  | _ => false

/-- Matcher `matches!(stmt, Statement::CreateIndex { .. })` (mysql.rs line 211). -/
def isCreateIndexStmt : Statement → Bool
  | .CreateIndex _ => true
  | _ => false

/-- A JSON value as built by the `query` result-shaping loop. -/
inductive JsonValue
  | null
  | bool (b : Bool)
  | num (n : Int)
  | str (s : String)
  | arr (xs : List JsonValue)
  | obj (fields : List (String × JsonValue))

/-- One database cell as observed through sqlx: the outcome of
`row.try_get::<serde_json::Value, _>(i)` and of `row.try_get::<String, _>(i)`
(`none` models the `Err(_)` case of the corresponding conversion). -/
structure DbCell where
  asJson : Option JsonValue
  asString : Option String

/-- One row returned by `fetch_all`: column name paired with its cell,
in column order. -/
abbrev DbRow := List (String × DbCell)

/-- Carrier of `result.rows_affected()` for the mutation verbs. -/
structure ExecOutcome where
  rows_affected : Nat
deriving DecidableEq, Repr

/-- Mirror of `struct ColumnInfo` (mysql.rs lines 34-41). -/
structure ColumnInfo where
  column_name : String
  data_type : String
  character_maximum_length : Option Int
  column_default : Option String
  is_nullable : String
deriving DecidableEq, Repr

/-- Mirror of `struct TableInfo` (mysql.rs lines 43-46). -/
structure TableInfo where
  table_name : String
deriving DecidableEq, Repr

/-- A parameterized query as handed to sqlx: the SQL text plus the values
bound with `.bind(...)`, in binding order. -/
structure BoundQuery where
  sql : String
  binds : List String
deriving DecidableEq, Repr

/-- The external collaborators every dispatcher verb may call:
the sqlparser parser, the sqlx pool/engine entry points and the
serde_json serializers.  Each is an oracle: the repository does not
implement them, it only composes them. -/
structure Env where
  parse : String → Except String (List Statement)
  fetch_all : MySqlPool → String → Except String (List DbRow)
  execute : MySqlPool → String → Except String ExecOutcome
  fetch_columns : MySqlPool → BoundQuery → Except String (List ColumnInfo)
  fetch_tables : MySqlPool → BoundQuery → Except String (List TableInfo)
  to_string_rows : List JsonValue → Except String String
  to_string_columns : List ColumnInfo → Except String String
  to_string_tables : List TableInfo → Except String String

/-- Transcription of `validate_sql` (mysql.rs lines 306-323): parse, reject unless exactly
one statement, reject unless the injected matcher accepts it, and return
the original text unchanged.  The `[]` arm of the inner match is
unreachable under the length guard. -/
def validate_sql (parse : String → Except String (List Statement))
    (query : String) (validator : Statement → Bool) (error_msg : String) :
    Except String String :=
  match parse query with
  | .error e => .error e
  | .ok statements =>
    if statements.length ≠ 1 then
      .error "Only single statement queries are allowed"
    else
      match statements with
      | statement :: _ =>
        if validator statement then .ok query else .error error_msg
      | [] => .error "Only single statement queries are allowed"

/-- Transcription of `Conns::register` (mysql.rs lines 55-69).  `connect` is
`MySqlPool::connect` and `freshId` the `uuid::Uuid::new_v4()` value, both
external.  Load-clone-insert-store on the published snapshot. -/
def Conns.register (connect : String → Except String MySqlPool)
    (freshId : String) (self : Conns) (conn_str : String) :
    Except String String × Conns :=
  match connect conn_str with
  | .error e => (.error e, self)
  | .ok pool =>
    let conn : Conn := { id := freshId, conn_str := conn_str, pool := pool }
    let conns := insertConn self.inner freshId conn
    (.ok freshId, { inner := conns })

/-- Transcription of `Conns::unregister` (mysql.rs lines 71-78): clone the snapshot, fail
with "Connection not found" when `remove` finds nothing (publishing
nothing), otherwise publish the snapshot without the entry. -/
def Conns.unregister (self : Conns) (id : String) :
    Except String Unit × Conns :=
  match lookupConn self.inner id with
  | none => (.error "Connection not found", self)
  | some _ => (.ok (), { inner := removeConn self.inner id })

/-- The three-tier cell coercion inside `Conns::query`
(mysql.rs lines 99-105): structured conversion, else text conversion
wrapped with `json!`, else `serde_json::Value::Null`. -/
def coerceCell (c : DbCell) : JsonValue :=
  match c.asJson with
  | some val => val
  | none =>
    match c.asString with
    | some s => .str s
    | none => .null

/-- Mirror of `serde_json::Map::insert`: binds the key, replacing any previous
binding, preserving first-insertion order is not modelled (the claims
quantify per column name). -/
def insertField (fields : List (String × JsonValue)) (k : String)
    (v : JsonValue) : List (String × JsonValue) :=
  (k, v) :: fields.filter (fun p => p.1 ≠ k)

/-- One iteration of the shaping loop in `Conns::query` (mysql.rs lines
97-106): insert the coerced value of column `col` under its name. -/
def shapeStep (map : List (String × JsonValue)) (col : String × DbCell) :
    List (String × JsonValue) :=
  insertField map col.1 (coerceCell col.2)

/-- The per-row shaping loop in `Conns::query` (mysql.rs lines 96-107):
for each column, insert the coerced value under the column name. -/
def shapeRow (row : DbRow) : List (String × JsonValue) :=
  row.foldl shapeStep []

/-- The result accumulation in `Conns::query` (mysql.rs lines 94-109):
one JSON object per returned row. -/
def shapeResults (rows : List DbRow) : List JsonValue :=
  rows.map (fun row => JsonValue.obj (shapeRow row))

/-- Transcription of `Conns::query` (mysql.rs lines 80-112): lookup, validate as a
`Statement::Query`, fetch, shape each row through the three-tier
coercion, serialize. -/
def Conns.query (env : Env) (self : Conns) (id : String) (query : String) :
    Except String String × Conns :=
  match lookupConn self.inner id with
  | none => (.error "Connection not found", self)
  | some conn =>
    match validate_sql env.parse query isQueryStmt
        "Only SELECT queries are allowed" with
    | .error e => (.error e, self)
    | .ok parsed_query =>
      match env.fetch_all conn.pool parsed_query with
      | .error e => (.error e, self)
      | .ok rows =>
        match env.to_string_rows (shapeResults rows) with
        | .error e => (.error e, self)
        | .ok out => (.ok out, self)

/-- The "success, rows_affected: N" message of the mutation verbs. -/
def rowsAffectedMsg (r : ExecOutcome) : String :=
  "success, rows_affected: " ++ toString r.rows_affected

/-- Transcription of `Conns::insert` (mysql.rs lines 114-132). -/
def Conns.insert (env : Env) (self : Conns) (id : String) (query : String) :
    Except String String × Conns :=
  match lookupConn self.inner id with
  | none => (.error "Connection not found", self)
  | some conn =>
    match validate_sql env.parse query isInsertStmt
        "Only INSERT statements are allowed" with
    | .error e => (.error e, self)
    | .ok q =>
      match env.execute conn.pool q with
      | .error e => (.error e, self)
      | .ok result => (.ok (rowsAffectedMsg result), self)

/-- Transcription of `Conns::update` (mysql.rs lines 134-152). -/
def Conns.update (env : Env) (self : Conns) (id : String) (query : String) :
    Except String String × Conns :=
  match lookupConn self.inner id with
  | none => (.error "Connection not found", self)
  | some conn =>
    match validate_sql env.parse query isUpdateStmt
        "Only UPDATE statements are allowed" with
    | .error e => (.error e, self)
    | .ok q =>
      match env.execute conn.pool q with
      | .error e => (.error e, self)
      | .ok result => (.ok (rowsAffectedMsg result), self)

/-- Transcription of `Conns::delete` (mysql.rs lines 154-172). -/
def Conns.delete (env : Env) (self : Conns) (id : String) (query : String) :
    Except String String × Conns :=
  match lookupConn self.inner id with
  | none => (.error "Connection not found", self)
  | some conn =>
    match validate_sql env.parse query isDeleteStmt
        "Only DELETE statements are allowed" with
    | .error e => (.error e, self)
    | .ok q =>
      match env.execute conn.pool q with
      | .error e => (.error e, self)
      | .ok result => (.ok (rowsAffectedMsg result), self)

/-- Transcription of `Conns::create_table` (mysql.rs lines 174-189). -/
def Conns.create_table (env : Env) (self : Conns) (id : String)
    (query : String) : Except String String × Conns :=
  match lookupConn self.inner id with
  | none => (.error "Connection not found", self)
  | some conn =>
    match validate_sql env.parse query isCreateTableStmt
        "Only CREATE TABLE statements are allowed" with
    | .error e => (.error e, self)
    | .ok q =>
      match env.execute conn.pool q with
      | .error e => (.error e, self)
      | .ok _ => (.ok "success", self)

/-- Transcription of `Conns::create_index` (mysql.rs lines 203-218). -/
def Conns.create_index (env : Env) (self : Conns) (id : String)
    (query : String) : Except String String × Conns :=
  match lookupConn self.inner id with
  | none => (.error "Connection not found", self)
  | some conn =>
    match validate_sql env.parse query isCreateIndexStmt
        "Only CREATE INDEX statements are allowed" with
    | .error e => (.error e, self)
    | .ok q =>
      match env.execute conn.pool q with
      | .error e => (.error e, self)
      | .ok _ => (.ok "success", self)

/-- Transcription of `Conns::drop_table` (mysql.rs lines 191-201): statement constructed
from the identifier, no parser gate. -/
def Conns.drop_table (env : Env) (self : Conns) (id : String)
    (table : String) : Except String String × Conns :=
  match lookupConn self.inner id with
  | none => (.error "Connection not found", self)
  | some conn =>
    let query := "DROP TABLE IF EXISTS `" ++ table ++ "`"
    match env.execute conn.pool query with
    | .error e => (.error e, self)
    | .ok _ => (.ok "success", self)

/-- Transcription of `Conns::drop_index` (mysql.rs lines 220-235). -/
def Conns.drop_index (env : Env) (self : Conns) (id : String)
    (index : String) (table : String) : Except String String × Conns :=
  match lookupConn self.inner id with
  | none => (.error "Connection not found", self)
  | some conn =>
    let query := "DROP INDEX `" ++ index ++ "` ON `" ++ table ++ "`"
    match env.execute conn.pool query with
    | .error e => (.error e, self)
    | .ok _ => (.ok "success", self)

/-- Transcription of `Conns::create_schema` (mysql.rs lines 287-297). -/
def Conns.create_schema (env : Env) (self : Conns) (id : String)
    (schema_name : String) : Except String String × Conns :=
  match lookupConn self.inner id with
  | none => (.error "Connection not found", self)
  | some conn =>
    let query := "CREATE DATABASE IF NOT EXISTS `" ++ schema_name ++ "`"
    match env.execute conn.pool query with
    | .error e => (.error e, self)
    | .ok _ => (.ok "success", self)

/-- The fixed SQL text of `Conns::describe` (mysql.rs lines 243-253). -/
def describe_sql : String :=
  "\n          SELECT\n            COLUMN_NAME as column_name,\n            CAST(DATA_TYPE AS CHAR) as data_type,\n            CHARACTER_MAXIMUM_LENGTH as character_maximum_length,\n            CAST(COLUMN_DEFAULT AS CHAR) as column_default,\n            IS_NULLABLE as is_nullable\n          FROM information_schema.columns\n          WHERE table_schema = DATABASE() AND table_name = ?\n          ORDER BY ordinal_position\n        "

/-- The request `Conns::describe` hands to sqlx: the fixed text with the
table name attached by `.bind(table)` (mysql.rs lines 255-258). -/
def describe_request (table : String) : BoundQuery :=
  { sql := describe_sql, binds := [table] }

/-- Transcription of `Conns::describe` (mysql.rs lines 237-261). -/
def Conns.describe (env : Env) (self : Conns) (id : String) (table : String) :
    Except String String × Conns :=
  match lookupConn self.inner id with
  | none => (.error "Connection not found", self)
  | some conn =>
    match env.fetch_columns conn.pool (describe_request table) with
    | .error e => (.error e, self)
    | .ok columns_info =>
      match env.to_string_columns columns_info with
      | .error e => (.error e, self)
      | .ok out => (.ok out, self)

/-- The fixed SQL text of `Conns::list_tables` (mysql.rs lines 269-277). -/
def list_tables_sql : String :=
  "\n          SELECT\n            TABLE_NAME as table_name\n          FROM information_schema.tables\n          WHERE\n            TABLE_SCHEMA = ?\n            AND TABLE_TYPE = 'BASE TABLE'\n          ORDER BY TABLE_NAME\n        "

/-- The request `Conns::list_tables` hands to sqlx: the fixed text with
the schema name attached by `.bind(schema)` (mysql.rs lines 279-282). -/
def list_tables_request (schema : String) : BoundQuery :=
  { sql := list_tables_sql, binds := [schema] }

/-- Transcription of `Conns::list_tables` (mysql.rs lines 263-285). -/
def Conns.list_tables (env : Env) (self : Conns) (id : String)
    (schema : String) : Except String String × Conns :=
  match lookupConn self.inner id with
  | none => (.error "Connection not found", self)
  | some conn =>
    match env.fetch_tables conn.pool (list_tables_request schema) with
    | .error e => (.error e, self)
    | .ok tables_info =>
      match env.to_string_tables tables_info with
      | .error e => (.error e, self)
      | .ok out => (.ok out, self)

/-- The six SQL-bearing verbs: the dispatcher methods that run caller
SQL text through the `validate_sql` gate. -/
inductive SqlVerb
  | query
  | insert
  | update
  | delete
  | create_table
  | create_index
deriving DecidableEq, Repr

/-- The statement-kind matcher each SQL-bearing verb injects into
`validate_sql`. -/
def SqlVerb.matcher : SqlVerb → (Statement → Bool)
  | .query => isQueryStmt
  | .insert => isInsertStmt
  | .update => isUpdateStmt
  | .delete => isDeleteStmt
  | .create_table => isCreateTableStmt
  | .create_index => isCreateIndexStmt

/-- The kind-mismatch message each SQL-bearing verb injects into
`validate_sql`. -/
def SqlVerb.mismatchMsg : SqlVerb → String
  | .query => "Only SELECT queries are allowed"
  | .insert => "Only INSERT statements are allowed"
  | .update => "Only UPDATE statements are allowed"
  | .delete => "Only DELETE statements are allowed"
  | .create_table => "Only CREATE TABLE statements are allowed"
  | .create_index => "Only CREATE INDEX statements are allowed"

/-- Dispatch selecting the `Conns` method of an SQL-bearing verb. -/
def runSqlVerb (v : SqlVerb) (env : Env) (self : Conns) (id : String)
    (query : String) : Except String String × Conns :=
  match v with
  | .query => Conns.query env self id query
  | .insert => Conns.insert env self id query
  | .update => Conns.update env self id query
  | .delete => Conns.delete env self id query
  | .create_table => Conns.create_table env self id query
  | .create_index => Conns.create_index env self id query

/-!
Interleaving model of `Conns::register` under concurrent execution.

`register`'s registry mutation is two separate atomic operations on the
`ArcSwap` cell (mysql.rs lines 64-66): `load` (snapshot the published
map, then clone and insert locally) and `store` (publish the locally
built map, replacing whatever is published at that moment).  The cell
itself guarantees each `load` and each `store` is atomic, but nothing
serializes the load-clone-insert-store sequence of two concurrent
`register` calls.  Here each concurrent `register` call is a thread that
performs its `load` step and its `store` step in order, under an
arbitrary interleaving.
-/

/-- One in-flight `register` call: the uuid it generated and the `Conn`
it will insert. -/
structure RegThread where
  id : String
  conn : Conn
deriving DecidableEq, Repr

/-- Global state of the interleaving: the published map inside the
`ArcSwap`, plus each thread's local clone (`none` before its `load`). -/
structure RegConcState where
  published : ConnMap
  locals : List (Option ConnMap)
deriving DecidableEq, Repr

/-- One atomic `ArcSwap` access by thread `t`. -/
inductive RegStep
  | load (t : Nat)
  | store (t : Nat)
deriving DecidableEq, Repr

/-- Semantics of one step of thread `t` of `register`:
`load` executes `self.inner.load().as_ref().clone()` (snapshot the
published map into the thread's local); `store` executes
`conns.insert(id, conn); self.inner.store(Arc::new(conns))`
(publish the local snapshot with the thread's entry inserted).
A `store` before the thread's `load`, or by a nonexistent thread, is a
no-op (such schedules are not program runs). -/
def regStep (threads : List RegThread) (s : RegConcState) :
    RegStep → RegConcState
  | .load t => { s with locals := s.locals.set t (some s.published) }
  | .store t =>
    match s.locals.get? t, threads.get? t with
    | some (some snap), some th =>
      { s with published := insertConn snap th.id th.conn }
    | _, _ => s

/-- Run a schedule of atomic steps from an initial published map, every
thread not yet loaded. -/
def runRegSchedule (threads : List RegThread) (init : ConnMap)
    (sched : List RegStep) : RegConcState :=
  sched.foldl (regStep threads)
    { published := init, locals := threads.map (fun _ => none) }

/-- A program run of `n` concurrent `register` calls: each thread
performs its `load` exactly once, its `store` exactly once, and the
`load` before the `store`. -/
def validSchedule (n : Nat) (sched : List RegStep) : Prop :=
  ∀ t, t < n →
    sched.count (RegStep.load t) = 1 ∧ sched.count (RegStep.store t) = 1 ∧
    sched.indexOf (RegStep.load t) < sched.indexOf (RegStep.store t)

/-- Lookup of a field in a shaped JSON object (by column name). -/
def lookupField : List (String × JsonValue) → String → Option JsonValue
  | [], _ => none
  | (k, v) :: rest, n => if k = n then some v else lookupField rest n

/-- An environment built from a parser alone, every engine-facing oracle
failing; used to instantiate theorems at concrete inputs. -/
def envOf (parse : String → Except String (List Statement)) : Env :=
  { parse := parse
    fetch_all := fun _ _ => .error "no engine"
    execute := fun _ _ => .error "no engine"
    fetch_columns := fun _ _ => .error "no engine"
    fetch_tables := fun _ _ => .error "no engine"
    to_string_rows := fun _ => .error "no serializer"
    to_string_columns := fun _ => .error "no serializer"
    to_string_tables := fun _ => .error "no serializer" }

/-- A concrete pool handle, for instantiating theorems. -/
def testPool : MySqlPool := { token := 0 }

/-- A concrete registered connection, for instantiating theorems. -/
def testConn : Conn :=
  { id := "cid", conn_str := "mysql://root@localhost", pool := testPool }

/-- A registry holding exactly `testConn` under id "cid". -/
def testConns : Conns := { inner := [("cid", testConn)] }

/-- First concurrent `register` call of the lost-update run. -/
def regThreadA : RegThread :=
  { id := "ida", conn := { id := "ida", conn_str := "mysql://a", pool := { token := 1 } } }

/-- Second concurrent `register` call of the lost-update run. -/
def regThreadB : RegThread :=
  { id := "idb", conn := { id := "idb", conn_str := "mysql://b", pool := { token := 2 } } }

/-- The interleaving in which both calls `load` the (empty) published
map before either `store`s: thread 0 loads, thread 1 loads, thread 0
stores, thread 1 stores. -/
def lostUpdateSchedule : List RegStep :=
  [RegStep.load 0, RegStep.load 1, RegStep.store 0, RegStep.store 1]

/-- The final global state of the lost-update run, starting from an
empty registry. -/
def lostUpdateFinal : RegConcState :=
  runRegSchedule [regThreadA, regThreadB] [] lostUpdateSchedule

/-- A concrete fetched row exercising all three coercion tiers: column
"a" converts directly, column "b" only textually, column "c" not at
all. -/
def threeTierRow : DbRow :=
  [("a", { asJson := some (JsonValue.num 1), asString := none }),
   ("b", { asJson := none, asString := some "two" }),
   ("c", { asJson := none, asString := none })]

/-- An environment whose engine returns `threeTierRow` and whose
serializer succeeds, for instantiating the coercion theorem. -/
def threeTierEnv : Env :=
  { envOf (fun _ => .ok [Statement.Query "sel"]) with
    fetch_all := fun _ _ => .ok [threeTierRow]
    to_string_rows := fun _ => .ok "serialized" }

theorem lookupConn_insert_self (m : ConnMap) (id : String) (c : Conn) :
    lookupConn (insertConn m id c) id = some c := by
  simp [insertConn, lookupConn]

theorem lookupConn_remove_self (m : ConnMap) (id : String) :
    lookupConn (removeConn m id) id = none := by
  induction m with
  | nil => rfl
  | cons p rest ih =>
    obtain ⟨k, v⟩ := p
    by_cases h : k = id <;> simp [removeConn, lookupConn, h, ih]

theorem validate_sql_not_single (parse : String → Except String (List Statement))
    (q : String) (ss : List Statement) (validator : Statement → Bool)
    (msg : String) (hp : parse q = .ok ss) (hne : ss.length ≠ 1) :
    validate_sql parse q validator msg =
      .error "Only single statement queries are allowed" := by
  cases ss with
  | nil => simp [validate_sql, hp]
  | cons s rest =>
    cases rest with
    | nil => simp at hne
    | cons s2 r2 => simp [validate_sql, hp]

theorem validate_sql_kind_mismatch (parse : String → Except String (List Statement))
    (q : String) (st : Statement) (validator : Statement → Bool) (msg : String)
    (hp : parse q = .ok [st]) (hm : validator st = false) :
    validate_sql parse q validator msg = .error msg := by
  simp [validate_sql, hp, hm]

theorem validate_sql_single_ok (parse : String → Except String (List Statement))
    (q : String) (st : Statement) (validator : Statement → Bool) (msg : String)
    (hp : parse q = .ok [st]) (hv : validator st = true) :
    validate_sql parse q validator msg = .ok q := by
  simp [validate_sql, hp, hv]

theorem runSqlVerb_validate_error (v : SqlVerb) (env : Env) (self : Conns)
    (id q : String) (conn : Conn) (e : String)
    (hl : lookupConn self.inner id = some conn)
    (hv : validate_sql env.parse q v.matcher v.mismatchMsg = .error e) :
    runSqlVerb v env self id q = (.error e, self) := by
  cases v <;>
    simp_all [runSqlVerb, Conns.query, Conns.insert, Conns.update,
      Conns.delete, Conns.create_table, Conns.create_index,
      SqlVerb.matcher, SqlVerb.mismatchMsg]

/-- C1: for every SQL text that parses into more than one statement and
every expected statement kind (validator and message), `validate_sql`
fails with the multiple-statements rejection, and every SQL-bearing verb
returns that rejection without the statement ever reaching the engine
(the outcome is this error for every environment, whatever its execute
and fetch oracles do). -/
theorem validate_sql_rejects_multiple_statements
    (parse : String → Except String (List Statement)) (q : String)
    (ss : List Statement) (hp : parse q = .ok ss) (hlen : 1 < ss.length)
    (validator : Statement → Bool) (msg : String) :
    validate_sql parse q validator msg =
      .error "Only single statement queries are allowed" ∧
    ∀ env : Env, env.parse = parse →
      ∀ (v : SqlVerb) (self : Conns) (id : String) (conn : Conn),
        lookupConn self.inner id = some conn →
        runSqlVerb v env self id q =
          (.error "Only single statement queries are allowed", self) := by
  have hval : ∀ validator' msg', validate_sql parse q validator' msg' =
      .error "Only single statement queries are allowed" := by
    intro validator' msg'
    exact validate_sql_not_single parse q ss validator' msg' hp (by omega)
  refine ⟨hval validator msg, ?_⟩
  intro env henv v self id conn hl
  exact runSqlVerb_validate_error v env self id q conn _ hl
    (by rw [henv]; exact hval v.matcher v.mismatchMsg)

/-- Witness for C1 at `"SELECT 1; SELECT 2"` parsing into two statements:
`validate_sql` rejects, and the `query` verb on a registered connection
returns the rejection. -/
theorem validate_sql_rejects_multiple_statements_witness :
    (fun _ => Except.ok [Statement.Query "SELECT 1", Statement.Query "SELECT 2"] :
        String → Except String (List Statement)) "SELECT 1; SELECT 2" =
      .ok [Statement.Query "SELECT 1", Statement.Query "SELECT 2"] ∧
    validate_sql
      (fun _ => .ok [Statement.Query "SELECT 1", Statement.Query "SELECT 2"])
      "SELECT 1; SELECT 2" isQueryStmt "Only SELECT queries are allowed" =
      .error "Only single statement queries are allowed" ∧
    runSqlVerb SqlVerb.query
      (envOf (fun _ => .ok [Statement.Query "SELECT 1", Statement.Query "SELECT 2"]))
      testConns "cid" "SELECT 1; SELECT 2" =
      (.error "Only single statement queries are allowed", testConns) := by
  have h := validate_sql_rejects_multiple_statements
    (fun _ => .ok [Statement.Query "SELECT 1", Statement.Query "SELECT 2"])
    "SELECT 1; SELECT 2"
    [Statement.Query "SELECT 1", Statement.Query "SELECT 2"]
    rfl (by decide) isQueryStmt "Only SELECT queries are allowed"
  exact ⟨rfl, h.1, h.2 _ rfl SqlVerb.query testConns "cid" testConn rfl⟩

/-- C10: for every SQL text that parses into zero statements (empty
text, comment-only text), `validate_sql` fails with the same
single-statement rejection used for multiple statements, so no
SQL-bearing verb ever sends an empty statement to the engine (for every
environment, every verb returns this error instead of executing). -/
theorem validate_sql_rejects_zero_statements
    (parse : String → Except String (List Statement)) (q : String)
    (hp : parse q = .ok []) (validator : Statement → Bool) (msg : String) :
    validate_sql parse q validator msg =
      .error "Only single statement queries are allowed" ∧
    ∀ env : Env, env.parse = parse →
      ∀ (v : SqlVerb) (self : Conns) (id : String) (conn : Conn),
        lookupConn self.inner id = some conn →
        runSqlVerb v env self id q =
          (.error "Only single statement queries are allowed", self) := by
  have hval : ∀ validator' msg', validate_sql parse q validator' msg' =
      .error "Only single statement queries are allowed" := by
    intro validator' msg'
    exact validate_sql_not_single parse q [] validator' msg' hp (by simp)
  refine ⟨hval validator msg, ?_⟩
  intro env henv v self id conn hl
  exact runSqlVerb_validate_error v env self id q conn _ hl
    (by rw [henv]; exact hval v.matcher v.mismatchMsg)

/-- Witness for C10 at the empty SQL text parsing into zero statements:
`validate_sql` rejects with the single-statement message, and the
`insert` verb on a registered connection returns that rejection. -/
theorem validate_sql_rejects_zero_statements_witness :
    (fun _ => Except.ok [] : String → Except String (List Statement)) "" =
      .ok ([] : List Statement) ∧
    validate_sql (fun _ => .ok []) "" isInsertStmt
      "Only INSERT statements are allowed" =
      .error "Only single statement queries are allowed" ∧
    runSqlVerb SqlVerb.insert (envOf (fun _ => .ok [])) testConns "cid" "" =
      (.error "Only single statement queries are allowed", testConns) := by
  have h := validate_sql_rejects_zero_statements (fun _ => .ok []) "" rfl
    isInsertStmt "Only INSERT statements are allowed"
  exact ⟨rfl, h.1, h.2 _ rfl SqlVerb.insert testConns "cid" testConn rfl⟩

/-- C2: for every SQL-bearing verb (query, insert, update, delete,
create_table, create_index) and every syntactically valid single
statement whose kind the verb's matcher rejects, the verb fails with its
statement-kind-mismatch message; quantified over every environment, so
the statement is never executed. -/
theorem sql_verbs_reject_kind_mismatch (v : SqlVerb) (env : Env)
    (self : Conns) (id q : String) (conn : Conn) (st : Statement)
    (hl : lookupConn self.inner id = some conn)
    (hp : env.parse q = .ok [st]) (hm : v.matcher st = false) :
    runSqlVerb v env self id q = (.error v.mismatchMsg, self) := by
  exact runSqlVerb_validate_error v env self id q conn _ hl
    (validate_sql_kind_mismatch env.parse q st v.matcher v.mismatchMsg hp hm)

/-- Witness for C2: `insert` invoked with a text parsing to a SELECT
statement fails with the INSERT mismatch message, and `query` invoked
with a text parsing to an INSERT statement fails with the SELECT
mismatch message. -/
theorem sql_verbs_reject_kind_mismatch_witness :
    runSqlVerb SqlVerb.insert (envOf (fun _ => .ok [Statement.Query "sel"]))
      testConns "cid" "SELECT * FROM t" =
      (.error "Only INSERT statements are allowed", testConns) ∧
    runSqlVerb SqlVerb.query (envOf (fun _ => .ok [Statement.Insert "ins"]))
      testConns "cid" "INSERT INTO t VALUES (1)" =
      (.error "Only SELECT queries are allowed", testConns) := by
  exact ⟨sql_verbs_reject_kind_mismatch SqlVerb.insert
      (envOf (fun _ => .ok [Statement.Query "sel"])) testConns "cid"
      "SELECT * FROM t" testConn (Statement.Query "sel") rfl rfl rfl,
    sql_verbs_reject_kind_mismatch SqlVerb.query
      (envOf (fun _ => .ok [Statement.Insert "ins"])) testConns "cid"
      "INSERT INTO t VALUES (1)" testConn (Statement.Insert "ins") rfl rfl rfl⟩

/-- C6: every dispatcher verb performs the registry lookup before any
other work: for every id absent from the registry, every payload and
every environment (so in particular for payloads whose parse fails or
yields several statements, and whatever the engine oracles would do),
the verb returns the connection-not-found error and the registry
snapshot unchanged. -/
theorem verbs_lookup_before_work (env : Env) (self : Conns) (id : String)
    (h : lookupConn self.inner id = none) :
    (∀ (v : SqlVerb) (q : String),
      runSqlVerb v env self id q = (.error "Connection not found", self)) ∧
    (∀ t, Conns.drop_table env self id t =
      (.error "Connection not found", self)) ∧
    (∀ ix t, Conns.drop_index env self id ix t =
      (.error "Connection not found", self)) ∧
    (∀ t, Conns.describe env self id t =
      (.error "Connection not found", self)) ∧
    (∀ s, Conns.list_tables env self id s =
      (.error "Connection not found", self)) ∧
    (∀ s, Conns.create_schema env self id s =
      (.error "Connection not found", self)) := by
  refine ⟨fun v q => ?_, fun t => ?_, fun ix t => ?_, fun t => ?_,
    fun s => ?_, fun s => ?_⟩
  · cases v <;>
      simp [runSqlVerb, Conns.query, Conns.insert, Conns.update,
        Conns.delete, Conns.create_table, Conns.create_index, h]
  · simp [Conns.drop_table, h]
  · simp [Conns.drop_index, h]
  · simp [Conns.describe, h]
  · simp [Conns.list_tables, h]
  · simp [Conns.create_schema, h]

/-- Witness for C6 on the empty registry and an unknown id, with a
parser that would reject the payload if it were consulted: the `query`
verb and `describe` both answer connection-not-found. -/
theorem verbs_lookup_before_work_witness :
    runSqlVerb SqlVerb.query (envOf (fun _ => .error "parse error"))
      { inner := [] } "nope" "not even sql ;;" =
      (.error "Connection not found", { inner := [] }) ∧
    Conns.describe (envOf (fun _ => .error "parse error"))
      { inner := [] } "nope" "some_table" =
      (.error "Connection not found", { inner := [] }) := by
  have h := verbs_lookup_before_work (envOf (fun _ => .error "parse error"))
    { inner := [] } "nope" rfl
  exact ⟨h.1 SqlVerb.query "not even sql ;;", h.2.2.2.1 "some_table"⟩

/-- C4: when `register` succeeds it returns the fresh id; the first
`unregister` of that id succeeds and removes the entry, the second
`unregister` fails with connection-not-found, and in general every
`unregister` on a registry not containing the id fails with
connection-not-found and publishes nothing. -/
theorem register_then_unregister_exactly_once
    (connect : String → Except String MySqlPool) (freshId conn_str : String)
    (self : Conns) (pool : MySqlPool) (hc : connect conn_str = .ok pool) :
    ∀ (res : Except String String) (self1 : Conns),
      Conns.register connect freshId self conn_str = (res, self1) →
      res = .ok freshId ∧
      (Conns.unregister self1 freshId).1 = .ok () ∧
      lookupConn (Conns.unregister self1 freshId).2.inner freshId = none ∧
      (∀ s2 : Conns, (Conns.unregister self1 freshId).2 = s2 →
        Conns.unregister s2 freshId = (.error "Connection not found", s2)) ∧
      (∀ s : Conns, lookupConn s.inner freshId = none →
        Conns.unregister s freshId = (.error "Connection not found", s)) := by
  intro res self1 hr
  have habs : ∀ s : Conns, lookupConn s.inner freshId = none →
      Conns.unregister s freshId = (.error "Connection not found", s) := by
    intro s hs
    simp [Conns.unregister, hs]
  simp only [Conns.register, hc, Prod.mk.injEq] at hr
  obtain ⟨h1, h2⟩ := hr
  subst h1 h2
  have hfirst : Conns.unregister
      { inner := insertConn self.inner freshId
          { id := freshId, conn_str := conn_str, pool := pool } } freshId =
      (.ok (), { inner := removeConn (insertConn self.inner freshId
          { id := freshId, conn_str := conn_str, pool := pool }) freshId }) := by
    simp [Conns.unregister, lookupConn_insert_self]
  rw [hfirst]
  refine ⟨rfl, rfl, lookupConn_remove_self _ _, ?_, habs⟩
  intro s2 hs2
  exact hs2 ▸ habs _ (lookupConn_remove_self _ _)

/-- Witness for C4 on the empty registry with a connecting pool: the
register-unregister-unregister triple behaves as claimed for the fresh
id "u1". -/
theorem register_then_unregister_exactly_once_witness :
    ((fun _ => Except.ok testPool : String → Except String MySqlPool)
        "mysql://ok" = .ok testPool) ∧
    ((Except.ok "u1" : Except String String) = .ok "u1" ∧
      (Conns.unregister
        { inner := insertConn [] "u1"
            { id := "u1", conn_str := "mysql://ok", pool := testPool } }
        "u1").1 = .ok () ∧
      lookupConn (Conns.unregister
        { inner := insertConn [] "u1"
            { id := "u1", conn_str := "mysql://ok", pool := testPool } }
        "u1").2.inner "u1" = none ∧
      (∀ s2 : Conns, (Conns.unregister
          { inner := insertConn [] "u1"
              { id := "u1", conn_str := "mysql://ok", pool := testPool } }
          "u1").2 = s2 →
        Conns.unregister s2 "u1" = (.error "Connection not found", s2)) ∧
      (∀ s : Conns, lookupConn s.inner "u1" = none →
        Conns.unregister s "u1" = (.error "Connection not found", s))) := by
  refine ⟨rfl, ?_⟩
  exact register_then_unregister_exactly_once (fun _ => .ok testPool) "u1"
    "mysql://ok" { inner := [] } testPool rfl (.ok "u1")
    { inner := insertConn [] "u1"
        { id := "u1", conn_str := "mysql://ok", pool := testPool } } rfl

/-- C5: when pool establishment fails, `register` returns the connection
error and the published registry mapping is exactly the one before the
call. -/
theorem register_failure_leaves_registry_unchanged
    (connect : String → Except String MySqlPool) (freshId : String)
    (self : Conns) (conn_str e : String) (hc : connect conn_str = .error e) :
    Conns.register connect freshId self conn_str = (.error e, self) := by
  simp [Conns.register, hc]

/-- Witness for C5: an unreachable connection string against the
registry holding `testConn` leaves it untouched. -/
theorem register_failure_leaves_registry_unchanged_witness :
    ((fun _ => Except.error "unreachable" : String → Except String MySqlPool)
        "mysql://down" = .error "unreachable") ∧
    Conns.register (fun _ => .error "unreachable") "u2" testConns
      "mysql://down" = (.error "unreachable", testConns) := by
  exact ⟨rfl, register_failure_leaves_registry_unchanged
    (fun _ => .error "unreachable") "u2" testConns "mysql://down"
    "unreachable" rfl⟩

theorem query_frame (env : Env) (self : Conns) (id q : String) :
    (Conns.query env self id q).2 = self := by
  unfold Conns.query
  repeat' split
  all_goals rfl

theorem insert_frame (env : Env) (self : Conns) (id q : String) :
    (Conns.insert env self id q).2 = self := by
  unfold Conns.insert
  repeat' split
  all_goals rfl

theorem update_frame (env : Env) (self : Conns) (id q : String) :
    (Conns.update env self id q).2 = self := by
  unfold Conns.update
  repeat' split
  all_goals rfl

theorem delete_frame (env : Env) (self : Conns) (id q : String) :
    (Conns.delete env self id q).2 = self := by
  unfold Conns.delete
  repeat' split
  all_goals rfl

theorem create_table_frame (env : Env) (self : Conns) (id q : String) :
    (Conns.create_table env self id q).2 = self := by
  unfold Conns.create_table
  repeat' split
  all_goals rfl

theorem create_index_frame (env : Env) (self : Conns) (id q : String) :
    (Conns.create_index env self id q).2 = self := by
  unfold Conns.create_index
  repeat' split
  all_goals rfl

theorem drop_table_frame (env : Env) (self : Conns) (id t : String) :
    (Conns.drop_table env self id t).2 = self := by
  unfold Conns.drop_table
  repeat' split
  all_goals (try rfl)
  all_goals (simp only []; split <;> rfl)

theorem drop_index_frame (env : Env) (self : Conns) (id ix t : String) :
    (Conns.drop_index env self id ix t).2 = self := by
  unfold Conns.drop_index
  repeat' split
  all_goals (try rfl)
  all_goals (simp only []; split <;> rfl)

theorem describe_frame (env : Env) (self : Conns) (id t : String) :
    (Conns.describe env self id t).2 = self := by
  unfold Conns.describe
  repeat' split
  all_goals rfl

theorem list_tables_frame (env : Env) (self : Conns) (id s : String) :
    (Conns.list_tables env self id s).2 = self := by
  unfold Conns.list_tables
  repeat' split
  all_goals rfl

theorem create_schema_frame (env : Env) (self : Conns) (id s : String) :
    (Conns.create_schema env self id s).2 = self := by
  unfold Conns.create_schema
  repeat' split
  all_goals (try rfl)
  all_goals (simp only []; split <;> rfl)

/-- C9: only `register` and `unregister` publish a new mapping.  Every
other operation leaves the published snapshot identical, on success and
on failure alike (the equation is unconditional in the environment and
its oracles), and a failing `unregister` publishes nothing. -/
theorem non_mutating_verbs_frame (env : Env) (self : Conns) (id : String) :
    (∀ (v : SqlVerb) (q : String), (runSqlVerb v env self id q).2 = self) ∧
    (∀ t, (Conns.drop_table env self id t).2 = self) ∧
    (∀ ix t, (Conns.drop_index env self id ix t).2 = self) ∧
    (∀ t, (Conns.describe env self id t).2 = self) ∧
    (∀ s, (Conns.list_tables env self id s).2 = self) ∧
    (∀ s, (Conns.create_schema env self id s).2 = self) ∧
    (∀ (uid e : String), (Conns.unregister self uid).1 = .error e →
      (Conns.unregister self uid).2 = self) := by
  refine ⟨fun v q => ?_, drop_table_frame env self id,
    fun ix t => drop_index_frame env self id ix t,
    describe_frame env self id, list_tables_frame env self id,
    create_schema_frame env self id, fun uid e herr => ?_⟩
  · cases v with
    | query => exact query_frame env self id q
    | insert => exact insert_frame env self id q
    | update => exact update_frame env self id q
    | delete => exact delete_frame env self id q
    | create_table => exact create_table_frame env self id q
    | create_index => exact create_index_frame env self id q
  · cases h : lookupConn self.inner uid with
    | none => simp [Conns.unregister, h]
    | some c => simp [Conns.unregister, h] at herr

/-- Witness for C9 on a concrete registry: `query` with a failing parse
leaves the snapshot untouched, and the failing `unregister` of an
unknown id publishes nothing. -/
theorem non_mutating_verbs_frame_witness :
    (runSqlVerb SqlVerb.query (envOf (fun _ => .error "bad sql"))
      testConns "cid" "oops").2 = testConns ∧
    ((Conns.unregister testConns "nope").1 = .error "Connection not found" ∧
      (Conns.unregister testConns "nope").2 = testConns) := by
  have h := non_mutating_verbs_frame (envOf (fun _ => .error "bad sql"))
    testConns "cid"
  exact ⟨h.1 SqlVerb.query "oops",
    rfl, h.2.2.2.2.2.2 "nope" "Connection not found" rfl⟩

/-- C7: `describe` and `list_tables` pass their identifier argument only
as a bound parameter: the request they construct carries a fixed SQL
text, the same for every identifier value, with the identifier solely in
the bind list; observing the engine interface (an oracle that reports
the SQL text it receives) confirms the text reaching the engine is the
fixed one for every identifier. -/
theorem identifier_only_in_binds (t1 t2 s1 s2 : String) :
    (describe_request t1).sql = (describe_request t2).sql ∧
    (describe_request t1).binds = [t1] ∧
    (list_tables_request s1).sql = (list_tables_request s2).sql ∧
    (list_tables_request s1).binds = [s1] ∧
    (∀ (env : Env) (self : Conns) (id : String) (conn : Conn) (t : String),
      lookupConn self.inner id = some conn →
      (Conns.describe
        { env with fetch_columns := fun _ bq => .error bq.sql }
        self id t).1 = .error describe_sql) ∧
    (∀ (env : Env) (self : Conns) (id : String) (conn : Conn) (s : String),
      lookupConn self.inner id = some conn →
      (Conns.list_tables
        { env with fetch_tables := fun _ bq => .error bq.sql }
        self id s).1 = .error list_tables_sql) := by
  refine ⟨rfl, rfl, rfl, rfl, ?_, ?_⟩
  · intro env self id conn t hl
    simp [Conns.describe, hl, describe_request]
  · intro env self id conn s hl
    simp [Conns.list_tables, hl, list_tables_request]

/-- Witness for C7 at an injection-shaped identifier: the request text
equals the one for a benign identifier, and the observed text reaching
the engine is the fixed `describe_sql`. -/
theorem identifier_only_in_binds_witness :
    (describe_request "x`; DROP TABLE users; --").sql =
      (describe_request "t").sql ∧
    (describe_request "x`; DROP TABLE users; --").binds =
      ["x`; DROP TABLE users; --"] ∧
    (Conns.describe
      { envOf (fun _ => .error "p") with
        fetch_columns := fun _ bq => .error bq.sql }
      testConns "cid" "x`; DROP TABLE users; --").1 = .error describe_sql := by
  have h := identifier_only_in_binds "x`; DROP TABLE users; --" "t" "s" "s"
  exact ⟨h.1, h.2.1, h.2.2.2.2.1 (envOf (fun _ => .error "p")) testConns
    "cid" testConn "x`; DROP TABLE users; --" rfl⟩

theorem lookupField_filter_ne (m : List (String × JsonValue)) (k n : String)
    (h : n ≠ k) :
    lookupField (m.filter (fun p => p.1 ≠ k)) n = lookupField m n := by
  induction m with
  | nil => rfl
  | cons p rest ih =>
    obtain ⟨a, b⟩ := p
    rw [List.filter_cons]
    split_ifs with hc
    · by_cases han : a = n
      · simp [lookupField, han]
      · simp only [lookupField, if_neg han]
        exact ih
    · have hak : a = k := by simpa using hc
      have han : ¬ a = n := by rw [hak]; exact fun he => h he.symm
      rw [ih]
      simp [lookupField, han]

theorem lookupField_insertField_self (m : List (String × JsonValue))
    (k : String) (v : JsonValue) :
    lookupField (insertField m k v) k = some v := by
  simp [insertField, lookupField]

theorem lookupField_insertField_ne (m : List (String × JsonValue))
    (k : String) (v : JsonValue) (n : String) (h : n ≠ k) :
    lookupField (insertField m k v) n = lookupField m n := by
  have hk : ¬ k = n := fun he => h he.symm
  simp only [insertField, lookupField, hk, if_false]
  exact lookupField_filter_ne m k n h

theorem foldl_shapeStep_not_mem (row : DbRow)
    (acc : List (String × JsonValue)) (n : String)
    (h : n ∉ row.map Prod.fst) :
    lookupField (row.foldl shapeStep acc) n = lookupField acc n := by
  induction row generalizing acc with
  | nil => rfl
  | cons hd tl ih =>
    simp only [List.map_cons, List.mem_cons, not_or] at h
    rw [List.foldl_cons, ih _ h.2]
    exact lookupField_insertField_ne acc hd.1 (coerceCell hd.2) n h.1

theorem shapeRow_foldl_lookup (row : DbRow) (n : String) (c : DbCell) :
    (row.map Prod.fst).Nodup → (n, c) ∈ row →
    ∀ acc, lookupField (row.foldl shapeStep acc) n = some (coerceCell c) := by
  induction row with
  | nil => intro _ hmem; simp at hmem
  | cons hd tl ih =>
    intro hnd hmem acc
    rw [List.foldl_cons]
    rcases List.mem_cons.mp hmem with heq | hmem'
    · have h1 : hd.1 = n := by rw [← heq]
      have hn : n ∉ tl.map Prod.fst := by
        simp only [List.map_cons, List.nodup_cons] at hnd
        rw [← h1]
        exact hnd.1
      rw [foldl_shapeStep_not_mem tl _ n hn]
      have h2 : shapeStep acc hd = insertField acc n (coerceCell c) := by
        rw [← heq]
        rfl
      rw [h2]
      exact lookupField_insertField_self acc n (coerceCell c)
    · have hnd' : (tl.map Prod.fst).Nodup := by
        simp only [List.map_cons, List.nodup_cons] at hnd
        exact hnd.2
      exact ih hnd' hmem' _

/-- C8: whenever `query` reaches the engine and the fetch succeeds, the
result set is shaped row by row without ever aborting (one JSON object
per returned row, serialized whole), and each column's value is produced
by the three-tier fallback: the structured conversion when it succeeds,
else the text conversion as a JSON string, else JSON null. -/
theorem query_three_tier_fallback (env : Env) (self : Conns) (id q : String)
    (conn : Conn) (st : Statement) (rows : List DbRow)
    (hl : lookupConn self.inner id = some conn)
    (hp : env.parse q = .ok [st]) (hst : isQueryStmt st = true)
    (hf : env.fetch_all conn.pool q = .ok rows) :
    (∀ out, env.to_string_rows (shapeResults rows) = .ok out →
      Conns.query env self id q = (.ok out, self)) ∧
    (shapeResults rows).length = rows.length ∧
    (∀ row ∈ rows, (row.map Prod.fst).Nodup →
      ∀ n c, (n, c) ∈ row →
        lookupField (shapeRow row) n = some (coerceCell c)) ∧
    (∀ c : DbCell,
      (∀ v, c.asJson = some v → coerceCell c = v) ∧
      (c.asJson = none → ∀ s, c.asString = some s →
        coerceCell c = JsonValue.str s) ∧
      (c.asJson = none → c.asString = none →
        coerceCell c = JsonValue.null)) := by
  refine ⟨?_, by simp [shapeResults], ?_, ?_⟩
  · intro out hout
    have hv := validate_sql_single_ok env.parse q st isQueryStmt
      "Only SELECT queries are allowed" hp hst
    simp [Conns.query, hl, hv, hf, hout]
  · intro row _ hnd n c hmem
    exact shapeRow_foldl_lookup row n c hnd hmem []
  · intro c
    refine ⟨fun v hv => ?_, fun hj s hs => ?_, fun hj hs => ?_⟩
    · simp [coerceCell, hv]
    · simp [coerceCell, hj, hs]
    · simp [coerceCell, hj, hs]

/-- Witness for C8 on a row exercising all three tiers: `query` returns
the serialized result, and the text-fallback and null-fallback cells
coerce as claimed. -/
theorem query_three_tier_fallback_witness :
    Conns.query threeTierEnv testConns "cid" "SELECT * FROM t" =
      (.ok "serialized", testConns) ∧
    coerceCell { asJson := none, asString := some "two" } =
      JsonValue.str "two" ∧
    coerceCell { asJson := none, asString := none } = JsonValue.null := by
  have h := query_three_tier_fallback threeTierEnv testConns "cid"
    "SELECT * FROM t" testConn (Statement.Query "sel") [threeTierRow]
    rfl rfl rfl rfl
  exact ⟨h.1 "serialized" rfl,
    (h.2.2.2 { asJson := none, asString := some "two" }).2.1 rfl "two" rfl,
    (h.2.2.2 { asJson := none, asString := none }).2.2 rfl rfl⟩

/-- C3 (refuted by the code): in the interleaving model of
`Conns::register` — whose registry mutation is an `ArcSwap` `load` of
the published map followed by a `store` of the locally extended clone,
with no mutual exclusion between the two — the schedule
load 0, load 1, store 0, store 1 is a valid run of two concurrent
`register` calls with distinct fresh ids, yet afterwards the first
call's id is absent from the published registry: the second `store`
overwrote the first call's insertion, so concurrent `register` calls
are not mutually exclusive and do not leave all N ids registered. -/
theorem concurrent_register_lost_update :
    validSchedule 2 lostUpdateSchedule ∧
    regThreadA.id ≠ regThreadB.id ∧
    lookupConn lostUpdateFinal.published regThreadA.id = none ∧
    lookupConn lostUpdateFinal.published regThreadB.id =
      some regThreadB.conn := by
  refine ⟨?_, by decide, by decide, by decide⟩
  intro t ht
  interval_cases t <;> decide
